import Mathlib

/-!
Verification of the batch webidl-to-wit conversion orchestrator
(`src/main.rs`): path classification, directory walking with path
mirroring, per-file conversion with a fault-isolation boundary, and
interface-identifier derivation.

The Rust program is shallowly embedded: filesystem state is an explicit
association list from paths (segment lists) to entries, the opaque
parse/translate collaborators (`weedle::parse`, `webidl2wit::webidl_to_wit`,
`Display::to_string`) are parameters of type `Pipeline`, and a panic of the
pipeline is an explicit `StageResult.panicked` outcome, mirroring the
`panic::catch_unwind` boundary in `convert_file`.
-/

/-! ## Characters and identifier derivation -/

/-- Decimal digit test: the ten ASCII characters `0`-`9`. -/
def isDecDigit (c : Char) : Bool := 48 ≤ c.toNat && c.toNat ≤ 57

/-- Model of Rust `char::is_numeric` (the Unicode `Numeric` property), used by
`convert_file` to filter the file stem.  The model covers the ASCII decimal
digits together with representative non-ASCII ranges of the property
(Arabic-Indic and Devanagari digits, vulgar fractions, Roman numerals); only
the fact that every ASCII decimal digit is numeric is used in proofs. -/
def rustIsNumeric (c : Char) : Bool :=
  isDecDigit c ||
  (0x660 ≤ c.toNat && c.toNat ≤ 0x669) ||
  (0x966 ≤ c.toNat && c.toNat ≤ 0x96F) ||
  (0xBC ≤ c.toNat && c.toNat ≤ 0xBE) ||
  (0x2160 ≤ c.toNat && c.toNat ≤ 0x2188)

/-- ASCII uppercase letter test (model of the casing classification used by
the `convert_case` crate, restricted to ASCII). -/
def isUpperCh (c : Char) : Bool := 65 ≤ c.toNat && c.toNat ≤ 90

/-- ASCII lowercase letter test. -/
def isLowerCh (c : Char) : Bool := 97 ≤ c.toNat && c.toNat ≤ 122

/-- ASCII lowercasing, as applied by `convert_case` to every word when
rendering `Case::Kebab`. -/
def lowerChar (c : Char) : Char :=
  if isUpperCh c then Char.ofNat (c.toNat + 32) else c

/-- Does the list start with a lowercase letter?  Used for the acronym
word boundary (`UpperUpperLower` splits before the second uppercase). -/
def headIsLower : List Char → Bool
  | [] => false
  | c :: _ => isLowerCh c

/-- Word splitting of `convert_case` with its default boundaries, restricted
to the boundaries that can fire here: the delimiters `_`, `-` and space, a
lowercase-to-uppercase transition, and the acronym boundary (an uppercase
letter followed by uppercase-then-lowercase).  The digit boundaries of
`convert_case` are omitted because `convert_file` removes every numeric
character before casing.  `acc` holds the current word reversed. -/
def splitWordsAux : List Char → List Char → List (List Char)
  | acc, [] => [acc.reverse]
  | acc, c :: rest =>
    if c = '_' || c = '-' || c = ' ' then
      acc.reverse :: splitWordsAux [] rest
    else
      match acc with
      | [] => splitWordsAux [c] rest
      | a :: _ =>
        if (isLowerCh a && isUpperCh c) || (isUpperCh a && isUpperCh c && headIsLower rest) then
          acc.reverse :: splitWordsAux [c] rest
        else
          splitWordsAux (c :: acc) rest

/-- Model of `convert_case`'s `to_case(Case::Kebab)`: split into words,
drop empty words, lowercase each word, join with `-`. -/
def toKebab (cs : List Char) : List Char :=
  (List.intersperse ['-']
    (((splitWordsAux [] cs).filter (fun w => !w.isEmpty)).map (List.map lowerChar))).flatten

/-- The interface name built by `convert_file` from the file stem:
`format!("{}-interface", stem.chars().filter(|c| !c.is_numeric())
.collect::<String>().to_case(Case::Kebab))`. -/
def interfaceNameOfStem (stem : String) : String :=
  String.mk (toKebab (stem.data.filter (fun c => !rustIsNumeric c))) ++ "-interface"

/-! ## FPath model

A path is a list of segments (`PathBuf` components); the name-level
operations (`file_stem`, `extension`, `with_extension`) act on the last
segment following the Rust `std::path` splitting rules. -/

/-- A filesystem path as its list of components. -/
abbrev FPath := List String

/-- Index of the last `.` in a list of characters, if any. -/
def lastIdxOfDot : List Char → Option Nat
  | [] => none
  | c :: rest =>
    match lastIdxOfDot rest with
    | some i => some (i + 1)
    | none => if c = '.' then some 0 else none

/-- Rust's file-name splitting: `"foo.tar.gz"` gives stem `"foo.tar"` and
extension `some "gz"`; a name with no dot, the name `".."`, or a name whose
only dot is leading (such as `".bashrc"`) has no extension. -/
def splitName (s : String) : String × Option String :=
  if s = ".." then (s, none)
  else
    match lastIdxOfDot s.data with
    | none => (s, none)
    | some 0 => (s, none)
    | some (i + 1) => (String.mk (s.data.take (i + 1)), some (String.mk (s.data.drop (i + 2))))

/-- Rust `Path::with_extension` on a single name (for a non-empty new
extension): keep the stem and attach `"." ++ ext`. -/
def setExt (name ext : String) : String :=
  (splitName name).1 ++ "." ++ ext

/-- Rust `Path::file_name`: the last component. -/
def fileName (p : FPath) : Option String := p.getLast?

/-- Rust `Path::file_stem`. -/
def fileStem (p : FPath) : Option String := (fileName p).map (fun n => (splitName n).1)

/-- Rust `Path::extension`. -/
def pathExtension (p : FPath) : Option String := (fileName p).bind (fun n => (splitName n).2)

/-- Rust `Path::with_extension` applied to the last component.  When the
path has no file name, `set_extension` leaves the path unchanged. -/
def withExtension (p : FPath) (ext : String) : FPath :=
  match fileName p with
  | none => p
  | some n => p.dropLast ++ [setExt n ext]

/-- Rust `Path::strip_prefix` over components: the remainder of `p` after
the leading components `base`, when `base` is a leading run of `p`. -/
def stripBase (base p : FPath) : Option FPath :=
  if p.take base.length = base then some (p.drop base.length) else none

/-- The extension filter of `convert_directory`:
`path.extension().map_or(true, |x| x != "idl" && x != "webidl")`. -/
def unrecognizedExt (p : FPath) : Bool :=
  match pathExtension p with
  | none => true
  | some x => x != "idl" && x != "webidl"

/-- Rendering of a path for progress messages (`Path::display`). -/
def showPath (p : FPath) : String := String.intercalate "/" p

/-! ## Filesystem state -/

/-- A directory entry: a directory or a file with its text. -/
inductive FsEntry where
  | dir
  | file (content : String)
deriving DecidableEq

/-- Filesystem state: an association list from paths to entries.  Every
directory that exists is listed explicitly. -/
structure FS where
  entries : List (FPath × FsEntry)
deriving DecidableEq

/-- Entry stored at a path, if any. -/
def FS.lookup (fs : FS) (p : FPath) : Option FsEntry := List.lookup p fs.entries

/-- Model of `Path::is_dir`: the path exists and is a directory. -/
def FS.isDir (fs : FS) (p : FPath) : Bool :=
  match fs.lookup p with
  | some .dir => true
  | _ => false

/-- Model of `fs::read_to_string`: the content if the path is a file, else
an IO error cause. -/
def FS.readFile (fs : FS) (p : FPath) : Except String String :=
  match fs.lookup p with
  | some (.file s) => .ok s
  | _ => .error ("No such file or directory (os error 2): " ++ showPath p)

/-- Model of `fs::read_dir`: the immediate children of a directory, in
listing order.  Fails with an IO cause when `p` is not a directory. -/
def FS.readDir (fs : FS) (p : FPath) : Except String (List FPath) :=
  if fs.isDir p then
    .ok (((fs.entries.filter (fun e => e.1 != [] && e.1.dropLast == p)).map (fun e => e.1)))
  else
    .error ("Not a directory (os error 20): " ++ showPath p)

/-- Model of `fs::write`: overwrites an existing file in place, creates the
file when its parent directory exists, and otherwise fails with an IO
cause.  `fs::write` never creates missing parent directories. -/
def FS.write (fs : FS) (p : FPath) (s : String) : Except String FS :=
  match fs.lookup p with
  | some .dir => .error ("Is a directory (os error 21): " ++ showPath p)
  | some (.file _) =>
    .ok ⟨fs.entries.map (fun e => if e.1 == p then (e.1, .file s) else e)⟩
  | none =>
    if fs.isDir p.dropLast then .ok ⟨fs.entries ++ [(p, .file s)]⟩
    else .error ("No such file or directory (os error 2): " ++ showPath p)

/-! ## The conversion pipeline collaborators

`weedle::parse`, `webidl2wit::webidl_to_wit` and the `Display` rendering of
the wit AST are external crates; they are modelled as opaque stage functions
that may return a value, report an error, or raise a panic.  The AST values
are opaque and represented by strings. -/

/-- Outcome of one pipeline stage: a value, a reported error, or a panic
(an unexpected fault to be caught by `panic::catch_unwind`). -/
inductive StageResult (α : Type) where
  | ok (val : α)
  | err (msg : String)
  | panicked
deriving DecidableEq

/-- Model of `webidl2wit::HandleUnsupported` (only `Skip` is used). -/
inductive HandleUnsupported where
  | skip
  | bail
deriving DecidableEq

/-- The fields of `webidl2wit::ConversionOptions` set by `convert_file`. -/
structure ConversionOptions where
  interface_name : String
  singleton_interface : Option String
  unsupported_features : HandleUnsupported
deriving DecidableEq

/-- The external parse/translate/render collaborators. -/
structure Pipeline where
  parse : String → StageResult String
  webidl_to_wit : String → ConversionOptions → StageResult String
  render : String → Option String

/-- A `clap::Error` built by `Error::raw(ErrorKind::Io, msg)`: every error
this program constructs has kind `Io`, so only the message is modelled. -/
structure Err where
  msg : String
deriving DecidableEq

/-- Result of the `panic::catch_unwind` closure of `convert_file`
(`src/main.rs` lines 34-73):
`panicked` for `Err(_)` of `catch_unwind`, `failed e` for `Ok(Err(e))`,
`skipped` for `Ok(Ok(None))` and `output s` for `Ok(Ok(Some(s)))`. -/
inductive ClosureOutcome where
  | panicked
  | failed (e : Err)
  | skipped
  | output (s : String)
deriving DecidableEq

/-- The conversion options built by `convert_file` for a given file stem. -/
def optionsFor (stem : String) : ConversionOptions :=
  { interface_name := interfaceNameOfStem stem
    singleton_interface := some "global-"
    unsupported_features := .skip }

/-- The body of the `panic::catch_unwind` closure in `convert_file`,
together with the lines it prints: build the options (the
`file_stem().unwrap()` panics when the path has no file name), parse,
translate (a reported translation error prints a line and yields
`Ok(None)`), and render the wit AST to text. -/
def runClosure (pl : Pipeline) (input : FPath) (content : String) :
    ClosureOutcome × List String :=
  match fileStem input with
  | none => (.panicked, [])
  | some stem =>
    let opts := optionsFor stem
    match pl.parse content with
    | .panicked => (.panicked, [])
    | .err m => (.failed ⟨"Error parsing input file: " ++ m⟩, [])
    | .ok ast =>
      match pl.webidl_to_wit ast opts with
      | .panicked => (.panicked, [])
      | .err m => (.skipped, ["Error converting webidl to wit: " ++ m])
      | .ok wit =>
        match pl.render wit with
        | none => (.panicked, [])
        | some s => (.output s, [])

/-! ## The orchestrator -/

/-- The first progress line of `convert_file`. -/
def convertFileMsg (i o : FPath) : String :=
  "Converting file: " ++ showPath i ++ " -> " ++ showPath o

/-- The first progress line of `convert_directory`. -/
def convertDirMsg (i o : FPath) : String :=
  "Converting directory: " ++ showPath i ++ " -> " ++ showPath o

/-- Embedding of `convert_file` (`src/main.rs` lines 18-95): read the input, run the
closure under `catch_unwind`, and act on the four outcomes - a closure
panic or a reported translation error is a non-fatal skip returning
`Ok(())`, a closure `Err` propagates, and a successful conversion is
written to the output file.  Returns the outcome, the filesystem after the
call, and the printed lines. -/
def convert_file (pl : Pipeline) (fs : FS) (input output : FPath) :
    Except Err Unit × FS × List String :=
  let lg0 := [convertFileMsg input output]
  match fs.readFile input with
  | .error cause => (.error ⟨"Error reading input file: " ++ cause⟩, fs, lg0)
  | .ok content =>
    match runClosure pl input content with
    | (.failed e, lg1) => (.error e, fs, lg0 ++ lg1)
    | (.panicked, lg1) => (.ok (), fs, lg0 ++ lg1)
    | (.skipped, lg1) => (.ok (), fs, lg0 ++ lg1)
    | (.output s, lg1) =>
      match fs.write output s with
      | .error cause => (.error ⟨"Error writing output file: " ++ cause⟩, fs, lg0 ++ lg1)
      | .ok fs1 => (.ok (), fs1, lg0 ++ lg1)

/-- The body of the `for entry in fs::read_dir(..)` loop of
`convert_directory` (`src/main.rs` lines 107-157), with the recursive call
abstracted as `recur`: strip the base prefix, recurse into directories
with the output re-rooted by the relative path, silently skip files with
unrecognized extensions, and convert recognized files into
`output_dir.join(file_name).with_extension("wit")`. -/
def dirStep (pl : Pipeline) (recur : FS → FPath → FPath → Except Err Unit × FS × List String)
    (fs : FS) (base output_dir path : FPath) : Except Err Unit × FS × List String :=
  match stripBase base path with
  | none => (.error ⟨"Error stripping prefix: " ++ showPath path⟩, fs, [])
  | some rel =>
    if fs.isDir path then
      recur fs path (output_dir ++ rel)
    else
      if unrecognizedExt path then (.ok (), fs, [])
      else
        match fileName path with
        | none => (.error ⟨"Error reading file name: " ++ showPath path⟩, fs, [])
        | some fname =>
          convert_file pl fs path (withExtension (output_dir ++ [fname]) "wit")

/-- Run a per-entry step over the listed entries in order, threading the
filesystem, accumulating printed lines, and stopping at the first fatal
error (the `return Err(e)` arms of the loop). -/
def walkEntries (step : FS → FPath → Except Err Unit × FS × List String) :
    FS → List FPath → Except Err Unit × FS × List String
  | fs, [] => (.ok (), fs, [])
  | fs, p :: rest =>
    match step fs p with
    | (.error e, fs1, lg) => (.error e, fs1, lg)
    | (.ok _, fs1, lg) =>
      match walkEntries step fs1 rest with
      | (r, fs2, lg2) => (r, fs2, lg ++ lg2)

/-- Embedding of `convert_directory` (`src/main.rs` lines 97-159): print the progress
line, list the directory, and run the loop body on every entry.  The Rust
recursion follows the (finite) directory tree; the embedding uses a fuel
argument, and `mainRun` supplies fuel larger than any possible nesting
depth, so the out-of-fuel error is never reached from `mainRun`. -/
def convert_directory (pl : Pipeline) :
    Nat → FS → FPath → FPath → FPath → Except Err Unit × FS × List String
  | 0, fs, _, _, _ => (.error ⟨"recursion limit"⟩, fs, [])
  | fuel + 1, fs, base, input, output =>
    let lg0 := [convertDirMsg input output]
    match fs.readDir input with
    | .error cause => (.error ⟨"Error reading directory: " ++ cause⟩, fs, lg0)
    | .ok entries =>
      match walkEntries
          (fun fs1 p =>
            dirStep pl (fun fs2 inp out => convert_directory pl fuel fs2 base inp out)
              fs1 base output p)
          fs entries with
      | (r, fs1, lg) => (r, fs1, lg0 ++ lg)

/-- The mode dispatch of `main` (`src/main.rs` lines 166-190) on
`(input.is_dir(), output.is_dir())`: directory-to-non-directory is the
configuration error, file-to-file converts verbatim, file-to-directory
joins the input file name onto the output directory with the `wit`
extension, and directory-to-directory walks the tree. -/
def mainRun (pl : Pipeline) (fs : FS) (input output : FPath) :
    Except Err Unit × FS × List String :=
  match fs.isDir input, fs.isDir output with
  | true, false => (.error ⟨"Cannot output directory to file"⟩, fs, [])
  | false, false => convert_file pl fs input output
  | false, true =>
    match fileName input with
    | none => (.error ⟨"Error reading file name: " ++ showPath input⟩, fs, [])
    | some f => convert_file pl fs input (withExtension (output ++ [f]) "wit")
  | true, true => convert_directory pl (fs.entries.length + 1) fs input input output

/-- The process outcome of `main` (`src/main.rs` lines 193-199): exit code
0 with the success message on `Ok`, and `clap::Error::exit` (a nonzero
exit status, modelled as 2) on `Err`. -/
def exitCode (r : Except Err Unit × FS × List String) : Nat :=
  match r.1 with
  | .ok _ => 0
  | .error _ => 2

/-- Is the result of `convert_file` a fatal error? -/
def isErrorB (r : Except Err Unit) : Bool :=
  match r with
  | .error _ => true
  | .ok _ => false

/-- Does the fatal error's message carry `m` as its final segment?  All
error messages of `convert_file` are a fixed context followed by the
underlying cause, so the cause is always the tail of the message. -/
def errMsgHasCauseB (r : Except Err Unit) (m : String) : Bool :=
  match r with
  | .error e => List.isSuffixOf m.data e.msg.data
  | .ok _ => false

/-- The identifier derivation of the spec's NameDeriver, as `convert_file`
computes it from a file's base name: take the stem, drop numeric
characters, kebab-case, and append `"-interface"`. -/
def deriveIdentifier (baseName : String) : String :=
  interfaceNameOfStem (splitName baseName).1

/-! ## Concrete pipelines and filesystems for the closed theorems -/

/-- A pipeline whose stages all succeed; the produced wit text is
`"wit:"` followed by the source text. -/
def plOk : Pipeline :=
  { parse := fun s => .ok s
    webidl_to_wit := fun a _ => .ok ("wit:" ++ a)
    render := fun w => some w }

/-- A pipeline whose parse stage reports the structural error `"bad"`. -/
def plParseErr : Pipeline :=
  { parse := fun _ => .err "bad"
    webidl_to_wit := fun a _ => .ok a
    render := fun w => some w }

/-- A pipeline whose parse stage raises an unexpected fault. -/
def plPanic : Pipeline :=
  { parse := fun _ => .panicked
    webidl_to_wit := fun a _ => .ok a
    render := fun w => some w }

/-- One recognized source file and a writable destination root. -/
def fsOneFile : FS := ⟨[([], .dir), (["in.idl"], .file "x")]⟩

/-- A source tree `src/a/b/f.idl` nested two directories deep, with the
output root `out` and both the mirrored subtree `out/a/b` and the
(incorrectly) doubled subtree `out/a/a/b` existing. -/
def fsDeep : FS :=
  ⟨[(["src"], .dir), (["src", "a"], .dir), (["src", "a", "b"], .dir),
    (["src", "a", "b", "f.idl"], .file "X"),
    (["out"], .dir), (["out", "a"], .dir), (["out", "a", "b"], .dir),
    (["out", "a", "a"], .dir), (["out", "a", "a", "b"], .dir)]⟩

/-- A source tree with one recognized file in a subdirectory, and an
existing but empty destination root. -/
def fsSub : FS :=
  ⟨[(["src"], .dir), (["src", "sub"], .dir),
    (["src", "sub", "f.idl"], .file "X"), (["out"], .dir)]⟩

/-- An input directory and an output path that does not exist at all. -/
def fsNoOut : FS := ⟨[(["src"], .dir), (["src", "f.idl"], .file "x")]⟩

/-- A directory holding two recognized files with the same stem `f` and
the two different recognized extensions. -/
def fsTwin : FS :=
  ⟨[(["src"], .dir), (["src", "f.idl"], .file "A"),
    (["src", "f.webidl"], .file "B"), (["out"], .dir)]⟩

/-- A single recognized file named `q.idl` with content `"y"`. -/
def fsQ : FS := ⟨[([], .dir), (["q.idl"], .file "y")]⟩

/-! ## Lemmas about identifier derivation -/

/-- ASCII lowercasing never produces a decimal digit from a non-digit. -/
theorem lowerChar_not_digit {c : Char} (h : isDecDigit c = false) :
    isDecDigit (lowerChar c) = false := by
  unfold lowerChar
  split
  · rename_i hu
    unfold isUpperCh at hu
    simp only [Bool.and_eq_true, decide_eq_true_eq] at hu
    obtain ⟨h1, h2⟩ := hu
    unfold isDecDigit
    generalize c.toNat = n at *
    interval_cases n <;> decide
  · exact h

/-- Every character of a word produced by `splitWordsAux acc cs` comes from
the accumulator or from the input. -/
theorem splitWordsAux_chars (cs : List Char) :
    ∀ (acc : List Char), ∀ w ∈ splitWordsAux acc cs, ∀ c ∈ w, c ∈ acc ∨ c ∈ cs := by
  induction cs with
  | nil =>
    intro acc w hw c hc
    simp only [splitWordsAux, List.mem_singleton] at hw
    subst hw
    exact Or.inl (List.mem_reverse.mp hc)
  | cons x rest ih =>
    intro acc w hw c hc
    cases acc with
    | nil =>
      simp only [splitWordsAux] at hw
      split at hw
      · rcases List.mem_cons.mp hw with h | h
        · subst h
          simp at hc
        · rcases ih [] w h c hc with h2 | h2
          · cases h2
          · exact Or.inr (List.mem_cons_of_mem _ h2)
      · rcases ih [x] w hw c hc with h2 | h2
        · rcases List.mem_singleton.mp h2 with rfl
          exact Or.inr (List.mem_cons_self _ _)
        · exact Or.inr (List.mem_cons_of_mem _ h2)
    | cons a as =>
      simp only [splitWordsAux] at hw
      split at hw
      · rcases List.mem_cons.mp hw with h | h
        · subst h
          exact Or.inl (List.mem_reverse.mp hc)
        · rcases ih [] w h c hc with h2 | h2
          · cases h2
          · exact Or.inr (List.mem_cons_of_mem _ h2)
      · split at hw
        · rcases List.mem_cons.mp hw with h | h
          · subst h
            exact Or.inl (List.mem_reverse.mp hc)
          · rcases ih [x] w h c hc with h2 | h2
            · rcases List.mem_singleton.mp h2 with rfl
              exact Or.inr (List.mem_cons_self _ _)
            · exact Or.inr (List.mem_cons_of_mem _ h2)
        · rcases ih (x :: a :: as) w hw c hc with h2 | h2
          · rcases List.mem_cons.mp h2 with rfl | h3
            · exact Or.inr (List.mem_cons_self _ _)
            · exact Or.inl h3
          · exact Or.inr (List.mem_cons_of_mem _ h2)

/-- Membership in an interspersed list: the element is a word of the
original list or the separator itself. -/
theorem mem_intersperse_words {α : Type} {sep w : α} {ws : List α}
    (h : w ∈ List.intersperse sep ws) : w = sep ∨ w ∈ ws := by
  induction ws with
  | nil => cases h
  | cons a t ih =>
    cases t with
    | nil =>
      rcases List.mem_singleton.mp h with rfl
      exact Or.inr (List.mem_cons_self _ _)
    | cons b t2 =>
      simp only [List.intersperse] at h
      rcases List.mem_cons.mp h with rfl | h2
      · exact Or.inr (List.mem_cons_self _ _)
      · rcases List.mem_cons.mp h2 with rfl | h3
        · exact Or.inl rfl
        · rcases ih h3 with h4 | h4
          · exact Or.inl h4
          · exact Or.inr (List.mem_cons_of_mem _ h4)

/-- Every character of the kebab-cased text is the dash separator or the
lowercasing of an input character. -/
theorem toKebab_chars {cs : List Char} {c : Char} (h : c ∈ toKebab cs) :
    c = '-' ∨ ∃ d ∈ cs, c = lowerChar d := by
  unfold toKebab at h
  rcases List.mem_flatten.mp h with ⟨w, hw, hc⟩
  rcases mem_intersperse_words hw with rfl | hw2
  · exact Or.inl (List.mem_singleton.mp hc)
  · rcases List.mem_map.mp hw2 with ⟨w0, hw0, rfl⟩
    rcases List.mem_map.mp hc with ⟨d, hd, rfl⟩
    have hw1 := (List.mem_filter.mp hw0).1
    rcases splitWordsAux_chars cs [] w0 hw1 d hd with h2 | h2
    · cases h2
    · exact Or.inr ⟨d, h2, rfl⟩

/-- No character of `interfaceNameOfStem stem` is a decimal digit. -/
theorem interfaceNameOfStem_no_digit (stem : String) :
    ∀ c ∈ (interfaceNameOfStem stem).data, isDecDigit c = false := by
  intro c hc
  unfold interfaceNameOfStem at hc
  rw [String.data_append] at hc
  rcases List.mem_append.mp hc with h | h
  · rcases toKebab_chars h with rfl | ⟨d, hd, rfl⟩
    · decide
    · have hd2 := (List.mem_filter.mp hd).2
      simp only [Bool.not_eq_eq_eq_not, Bool.not_true] at hd2
      apply lowerChar_not_digit
      unfold rustIsNumeric at hd2
      cases hdig : isDecDigit d
      · rfl
      · rw [hdig] at hd2
        simp at hd2
  · have hi : ∀ c ∈ ("-interface" : String).data, isDecDigit c = false := by decide
    exact hi c h

/-- C6: for every source file name, the derived interface identifier ends
with the literal suffix `"-interface"` and contains no decimal digit
character; it is a pure function of the base name (being a plain function
of its argument), computed by stripping the extension, filtering out
numeric characters, kebab-casing and appending the suffix. -/
theorem deriveIdentifier_suffix_and_no_digit (baseName : String) :
    List.isSuffixOf "-interface".data (deriveIdentifier baseName).data = true ∧
    (deriveIdentifier baseName).data.all (fun c => !isDecDigit c) = true := by
  constructor
  · show List.isSuffixOf "-interface".data (interfaceNameOfStem (splitName baseName).1).data = true
    unfold interfaceNameOfStem
    rw [String.data_append]
    exact List.isSuffixOf_iff_suffix.mpr (List.suffix_append _ _)
  · rw [List.all_eq_true]
    intro c hc
    have h := interfaceNameOfStem_no_digit (splitName baseName).1 c hc
    simp [h]

/-- Witness for `deriveIdentifier_suffix_and_no_digit` at the spec's own
scenario name `Foo123.idl`. -/
theorem deriveIdentifier_suffix_and_no_digit_witness :
    List.isSuffixOf "-interface".data (deriveIdentifier "Foo123.idl").data = true ∧
    (deriveIdentifier "Foo123.idl").data.all (fun c => !isDecDigit c) = true :=
  deriveIdentifier_suffix_and_no_digit "Foo123.idl"

/-! ## Lemmas about the fault barrier of `convert_file` -/

/-- When the closure panics, `convert_file` returns `Ok(())` and leaves the
filesystem untouched (the `Err(_) => return Ok(())` arm after
`catch_unwind`). -/
theorem convert_file_panicked_ok (pl : Pipeline) (fs : FS) (input output : FPath)
    (c : String) (hr : fs.readFile input = .ok c)
    (hp : (runClosure pl input c).1 = .panicked) :
    (convert_file pl fs input output).1 = .ok () ∧
    (convert_file pl fs input output).2.1 = fs := by
  unfold convert_file
  rw [hr]
  rcases h2 : runClosure pl input c with ⟨o, lg⟩
  rw [h2] at hp
  simp only at hp
  subst hp
  simp [h2]

/-- C3: a file whose conversion pipeline raises an unexpected fault is
caught by `convert_file`: the call returns `Ok`, writes nothing, and a
single-file run over such a file finishes with exit code 0. -/
theorem pipeline_fault_skipped_run_succeeds (pl : Pipeline) (fs : FS)
    (input output : FPath) (c : String)
    (hr : fs.readFile input = .ok c)
    (hp : (runClosure pl input c).1 = .panicked)
    (hi : fs.isDir input = false) (ho : fs.isDir output = false) :
    (convert_file pl fs input output).1 = .ok () ∧
    (convert_file pl fs input output).2.1 = fs ∧
    exitCode (mainRun pl fs input output) = 0 := by
  have key := convert_file_panicked_ok pl fs input output c hr hp
  refine ⟨key.1, key.2, ?_⟩
  unfold mainRun
  rw [hi, ho]
  simp [exitCode, key.1]

/-- Witness for `pipeline_fault_skipped_run_succeeds`: a single-file run
on `q.idl` with a pipeline whose parse stage panics. -/
theorem pipeline_fault_skipped_run_succeeds_witness :
    (convert_file plPanic fsQ ["q.idl"] ["q.wit"]).1 = .ok () ∧
    (convert_file plPanic fsQ ["q.idl"] ["q.wit"]).2.1 = fsQ ∧
    exitCode (mainRun plPanic fsQ ["q.idl"] ["q.wit"]) = 0 :=
  pipeline_fault_skipped_run_succeeds plPanic fsQ ["q.idl"] ["q.wit"] "y"
    rfl rfl rfl rfl

/-- C9: every panic site of the conversion closure - the
`file_stem().unwrap()`, the parse stage, the translation stage, and the
rendering of the wit AST to text - lies inside the `catch_unwind`
boundary: each yields the `panicked` closure outcome, and a panicked
closure makes `convert_file` return `Ok(())` without writing anything
instead of unwinding. -/
theorem closure_panics_never_escape (pl : Pipeline) (fs : FS) (input output : FPath)
    (c : String) (hr : fs.readFile input = .ok c)
    (hp : fileStem input = none ∨
          pl.parse c = .panicked ∨
          (∃ stem a, fileStem input = some stem ∧ pl.parse c = .ok a ∧
            pl.webidl_to_wit a (optionsFor stem) = .panicked) ∨
          (∃ stem a w, fileStem input = some stem ∧ pl.parse c = .ok a ∧
            pl.webidl_to_wit a (optionsFor stem) = .ok w ∧ pl.render w = none)) :
    (runClosure pl input c).1 = .panicked ∧
    (convert_file pl fs input output).1 = .ok () ∧
    (convert_file pl fs input output).2.1 = fs := by
  have hpan : (runClosure pl input c).1 = .panicked := by
    rcases hp with h | h | ⟨stem, a, h1, h2, h3⟩ | ⟨stem, a, w, h1, h2, h3, h4⟩
    · simp [runClosure, h]
    · cases hfs : fileStem input with
      | none => simp [runClosure, hfs]
      | some stem => simp [runClosure, hfs, h]
    · simp [runClosure, h1, h2, h3]
    · simp [runClosure, h1, h2, h3, h4]
  have key := convert_file_panicked_ok pl fs input output c hr hpan
  exact ⟨hpan, key.1, key.2⟩

/-- Witness for `closure_panics_never_escape` with a parse-stage panic on
the file `in.idl`. -/
theorem closure_panics_never_escape_witness :
    (runClosure plPanic ["in.idl"] "x").1 = .panicked ∧
    (convert_file plPanic fsOneFile ["in.idl"] ["out.wit"]).1 = .ok () ∧
    (convert_file plPanic fsOneFile ["in.idl"] ["out.wit"]).2.1 = fsOneFile :=
  closure_panics_never_escape plPanic fsOneFile ["in.idl"] ["out.wit"] "x"
    rfl (Or.inr (Or.inl rfl))

/-- Applying `with_extension` to a path written as directory plus file name. -/
theorem withExtension_concat (l : List String) (n e : String) :
    withExtension (l ++ [n]) e = l ++ [setExt n e] := by
  unfold withExtension fileName
  rw [List.getLast?_concat, List.dropLast_concat]

/-- C1 counterexample: on a file whose text reads fine but fails to parse,
`convert_file` does not return `Ok`; it returns the parse error as a fatal
`clap` error (so the failure does propagate out of `convert_file`). -/
theorem parse_error_escapes_convert_file_cx :
    (convert_file plParseErr fsOneFile ["in.idl"] ["out.wit"]).1 =
      .error ⟨"Error parsing input file: bad"⟩ := by
  rfl

/-- C1 amended: a parse-stage structural error is fatal, not a skip:
`convert_file` returns `Err` carrying the parse error message, writes no
output, and by the error-propagation arms of `convert_directory` this
aborts the enclosing batch.  Only reported translation errors and panics
are downgraded to skips. -/
theorem parse_error_is_fatal (pl : Pipeline) (fs : FS) (input output : FPath)
    (c m stem : String) (hr : fs.readFile input = .ok c)
    (hs : fileStem input = some stem) (hp : pl.parse c = .err m) :
    convert_file pl fs input output =
      (.error ⟨"Error parsing input file: " ++ m⟩, fs, [convertFileMsg input output]) := by
  have hc : runClosure pl input c = (.failed ⟨"Error parsing input file: " ++ m⟩, []) := by
    simp [runClosure, hs, hp]
  simp [convert_file, hr, hc]

/-- Witness for `parse_error_is_fatal` on the file `q.idl`. -/
theorem parse_error_is_fatal_witness :
    convert_file plParseErr fsQ ["q.idl"] ["q.wit"] =
      (.error ⟨"Error parsing input file: bad"⟩, fsQ,
        [convertFileMsg ["q.idl"] ["q.wit"]]) :=
  parse_error_is_fatal plParseErr fsQ ["q.idl"] ["q.wit"] "y" "bad" "q" rfl rfl rfl

/-- An input directory, a recognized file inside it, and an output path
that exists as a file. -/
def fsOutFile : FS :=
  ⟨[(["src"], .dir), (["src", "f.idl"], .file "x"), (["out"], .file "z")]⟩

/-- C4 counterexample: with an input directory and an output path that
does not exist at all, `main` fails with the configuration error rather
than selecting directory-tree mode, because `is_dir` is false for a
nonexistent path. -/
theorem dir_to_missing_output_rejected_cx :
    FS.lookup fsNoOut ["out"] = none ∧
    mainRun plOk fsNoOut ["src"] ["out"] =
      (.error ⟨"Cannot output directory to file"⟩, fsNoOut, []) :=
  ⟨rfl, rfl⟩

/-- C4 amended: when the input is a directory, `main` fails with the
"Cannot output directory to file" error whenever the output path is not an
existing directory - whether it exists as a file or does not exist at all -
and in the failing case nothing is read, converted, written, or printed;
directory-tree mode is selected only when the output is an existing
directory. -/
theorem dir_to_nondir_fails_before_work (pl : Pipeline) (fs : FS) (input output : FPath)
    (hi : fs.isDir input = true) (ho : fs.isDir output = false) :
    mainRun pl fs input output = (.error ⟨"Cannot output directory to file"⟩, fs, []) := by
  unfold mainRun
  rw [hi, ho]

/-- Witness for `dir_to_nondir_fails_before_work` where the output path
exists as a regular file. -/
theorem dir_to_nondir_fails_before_work_witness :
    mainRun plOk fsOutFile ["src"] ["out"] =
      (.error ⟨"Cannot output directory to file"⟩, fsOutFile, []) :=
  dir_to_nondir_fails_before_work plOk fsOutFile ["src"] ["out"] rfl rfl

/-- C2: the recursive walk joins the path relative to the *base* root onto
an output directory that was already re-rooted by the parent's relative
path, so for a file two directories deep (`src/a/b/f.idl`) the converted
output lands at `out/a/a/b/f.wit` - the segment `a` is duplicated - and
nothing is written at the mirrored path `out/a/b/f.wit`. -/
theorem nested_walk_duplicates_segments :
    (mainRun plOk fsDeep ["src"] ["out"]).1 = .ok () ∧
    FS.lookup (mainRun plOk fsDeep ["src"] ["out"]).2.1
      ["out", "a", "a", "b", "f.wit"] = some (.file "wit:X") ∧
    FS.lookup (mainRun plOk fsDeep ["src"] ["out"]).2.1
      ["out", "a", "b", "f.wit"] = none :=
  ⟨rfl, rfl, rfl⟩

/-- C5: the walk never creates output directories: converting a source
tree with a recognized file in a subdirectory into an existing but empty
destination root fails fatally at the `fs::write`, because the mirrored
subdirectory `out/sub` was never created, and the filesystem is left
unchanged. -/
theorem walk_does_not_create_output_dirs :
    (mainRun plOk fsSub ["src"] ["out"]).1 =
      .error ⟨"Error writing output file: No such file or directory (os error 2): out/sub/f.wit"⟩ ∧
    (mainRun plOk fsSub ["src"] ["out"]).2.1 = fsSub :=
  ⟨rfl, rfl⟩

/-- C7: a directory entry that is not a directory and whose extension is
not exactly `idl` or `webidl` (including entries with no extension) is
skipped silently by the loop body: the filesystem is untouched, nothing is
printed, and the walk over the remaining entries proceeds as if the entry
were absent. -/
theorem unrecognized_entry_silently_skipped (pl : Pipeline)
    (recur : FS → FPath → FPath → Except Err Unit × FS × List String)
    (fs : FS) (base outDir path rel : FPath) (rest : List FPath)
    (hrel : stripBase base path = some rel)
    (hdir : fs.isDir path = false)
    (h1 : pathExtension path ≠ some "idl")
    (h2 : pathExtension path ≠ some "webidl") :
    dirStep pl recur fs base outDir path = (.ok (), fs, []) ∧
    walkEntries (fun f p => dirStep pl recur f base outDir p) fs (path :: rest) =
      walkEntries (fun f p => dirStep pl recur f base outDir p) fs rest := by
  have hu : unrecognizedExt path = true := by
    unfold unrecognizedExt
    cases hx : pathExtension path with
    | none => rfl
    | some x =>
      rw [hx] at h1 h2
      simp only [Ne, Option.some.injEq] at h1 h2
      simp [bne_iff_ne, h1, h2]
  have hstep : dirStep pl recur fs base outDir path = (.ok (), fs, []) := by
    simp [dirStep, hrel, hdir, hu]
  refine ⟨hstep, ?_⟩
  simp only [walkEntries]
  rw [hstep]
  rcases hw : walkEntries (fun f p => dirStep pl recur f base outDir p) fs rest with ⟨r, fs2, lg2⟩
  simp [hw]

/-- Witness for `unrecognized_entry_silently_skipped` on the spec's
scenario entry `readme.txt`. -/
theorem unrecognized_entry_silently_skipped_witness :
    dirStep plOk (fun f _ _ => (.ok (), f, [])) (FS.mk []) ["src"] ["o"]
      ["src", "readme.txt"] = (.ok (), FS.mk [], []) ∧
    walkEntries
      (fun f p => dirStep plOk (fun f2 _ _ => (.ok (), f2, [])) f ["src"] ["o"] p)
      (FS.mk []) (["src", "readme.txt"] :: []) =
    walkEntries
      (fun f p => dirStep plOk (fun f2 _ _ => (.ok (), f2, [])) f ["src"] ["o"] p)
      (FS.mk []) [] :=
  unrecognized_entry_silently_skipped plOk (fun f _ _ => (.ok (), f, [])) (FS.mk [])
    ["src"] ["o"] ["src", "readme.txt"] ["readme.txt"] [] rfl rfl
    (by decide) (by decide)

/-- C10: two file names with the same stem and the two recognized
extensions map to the same destination `stem ++ ".wit"` under the
re-rooted output directory; on the concrete twin tree both conversions
are attempted (two progress lines, no warning or error line), the run
succeeds, and the later-visited `f.webidl` overwrites the output of the
earlier `f.idl`. -/
theorem same_stem_collision_last_write_wins (outDir : FPath) (n1 n2 st : String)
    (h1 : splitName n1 = (st, some "idl")) (h2 : splitName n2 = (st, some "webidl")) :
    withExtension (outDir ++ [n1]) "wit" = outDir ++ [st ++ "." ++ "wit"] ∧
    withExtension (outDir ++ [n2]) "wit" = outDir ++ [st ++ "." ++ "wit"] ∧
    (mainRun plOk fsTwin ["src"] ["out"]).1 = .ok () ∧
    FS.lookup (mainRun plOk fsTwin ["src"] ["out"]).2.1 ["out", "f.wit"] =
      some (.file "wit:B") ∧
    (mainRun plOk fsTwin ["src"] ["out"]).2.2 =
      [convertDirMsg ["src"] ["out"],
       convertFileMsg ["src", "f.idl"] ["out", "f.wit"],
       convertFileMsg ["src", "f.webidl"] ["out", "f.wit"]] := by
  refine ⟨?_, ?_, rfl, rfl, rfl⟩
  · rw [withExtension_concat]
    unfold setExt
    rw [h1]
  · rw [withExtension_concat]
    unfold setExt
    rw [h2]

/-- Witness for `same_stem_collision_last_write_wins` at the twin file
names `f.idl` and `f.webidl`. -/
theorem same_stem_collision_last_write_wins_witness :
    withExtension (["out"] ++ ["f.idl"]) "wit" = ["out"] ++ ["f" ++ "." ++ "wit"] ∧
    withExtension (["out"] ++ ["f.webidl"]) "wit" = ["out"] ++ ["f" ++ "." ++ "wit"] ∧
    (mainRun plOk fsTwin ["src"] ["out"]).1 = .ok () ∧
    FS.lookup (mainRun plOk fsTwin ["src"] ["out"]).2.1 ["out", "f.wit"] =
      some (.file "wit:B") ∧
    (mainRun plOk fsTwin ["src"] ["out"]).2.2 =
      [convertDirMsg ["src"] ["out"],
       convertFileMsg ["src", "f.idl"] ["out", "f.wit"],
       convertFileMsg ["src", "f.webidl"] ["out", "f.wit"]] :=
  same_stem_collision_last_write_wins ["out"] "f.idl" "f.webidl" "f" rfl rfl

/-- An error message built as a fixed context followed by the cause does
carry the cause. -/
theorem errMsg_append_cause (pre m : String) :
    errMsgHasCauseB (.error ⟨pre ++ m⟩) m = true := by
  have hm : errMsgHasCauseB (.error ⟨pre ++ m⟩) m =
      List.isSuffixOf m.data (pre ++ m).data := rfl
  rw [hm, String.data_append]
  exact List.isSuffixOf_iff_suffix.mpr (List.suffix_append _ _)

/-- C8 counterexample: `convert_file` can return a fatal error although no
filesystem operation failed - here the read succeeds and no write is
attempted, yet the parse failure is returned as an error. -/
theorem fatal_error_without_fs_failure_cx :
    fsQ.readFile ["q.idl"] = .ok "y" ∧
    (convert_file plParseErr fsQ ["q.idl"] ["q2.wit"]).1 =
      .error ⟨"Error parsing input file: bad"⟩ :=
  ⟨rfl, rfl⟩

/-- C8 amended: `convert_file` returns a fatal error - leaving the
filesystem unchanged and carrying the triggering cause at the end of the
message - whenever reading the source fails, parsing fails, or writing
the destination fails; the error is returned to the caller, where the
`return Err(e)` arms of `convert_directory` abort the batch. -/
theorem fatal_error_cases (pl : Pipeline) (fs : FS) (input output : FPath) (m : String)
    (h : fs.readFile input = .error m ∨
         (∃ c stem, fs.readFile input = .ok c ∧ fileStem input = some stem ∧
           pl.parse c = .err m) ∨
         (∃ c s, fs.readFile input = .ok c ∧ (runClosure pl input c).1 = .output s ∧
           fs.write output s = .error m)) :
    isErrorB (convert_file pl fs input output).1 = true ∧
    (convert_file pl fs input output).2.1 = fs ∧
    errMsgHasCauseB (convert_file pl fs input output).1 m = true := by
  rcases h with h | ⟨c, stem, hr, hs, hp⟩ | ⟨c, s, hr, ho, hw⟩
  · have : convert_file pl fs input output =
        (.error ⟨"Error reading input file: " ++ m⟩, fs, [convertFileMsg input output]) := by
      simp [convert_file, h]
    rw [this]
    exact ⟨rfl, rfl, errMsg_append_cause "Error reading input file: " m⟩
  · have hc : runClosure pl input c = (.failed ⟨"Error parsing input file: " ++ m⟩, []) := by
      simp [runClosure, hs, hp]
    have : convert_file pl fs input output =
        (.error ⟨"Error parsing input file: " ++ m⟩, fs, [convertFileMsg input output]) := by
      simp [convert_file, hr, hc]
    rw [this]
    exact ⟨rfl, rfl, errMsg_append_cause "Error parsing input file: " m⟩
  · rcases hrc : runClosure pl input c with ⟨o, lg⟩
    rw [hrc] at ho
    simp only at ho
    subst ho
    have : (convert_file pl fs input output).1 =
        .error ⟨"Error writing output file: " ++ m⟩ ∧
        (convert_file pl fs input output).2.1 = fs := by
      simp [convert_file, hr, hrc, hw]
    rw [this.1]
    exact ⟨rfl, this.2, errMsg_append_cause "Error writing output file: " m⟩

/-- Witness for `fatal_error_cases`: reading a missing input file. -/
theorem fatal_error_cases_witness :
    isErrorB (convert_file plOk fsOneFile ["missing.idl"] ["out.wit"]).1 = true ∧
    (convert_file plOk fsOneFile ["missing.idl"] ["out.wit"]).2.1 = fsOneFile ∧
    errMsgHasCauseB (convert_file plOk fsOneFile ["missing.idl"] ["out.wit"]).1
      "No such file or directory (os error 2): missing.idl" = true :=
  fatal_error_cases plOk fsOneFile ["missing.idl"] ["out.wit"]
    "No such file or directory (os error 2): missing.idl" (Or.inl rfl)
